import Mathlib

/-!
Verification of `gcs_transcribe_async.py` (bosatsu/gcs_transribe).

The script is modelled shallowly:

* Python floats that hold elapsed durations are modelled as rationals
  (every concrete value the claims mention is an exact decimal);
* the file system is modelled as a function `String → Option (List Nat)`
  giving the byte content of each readable path (`none` = open/read fails);
* `print`/`exit`/exceptions are modelled by returning descriptions of the
  effects (`Except`, outcome inductives) instead of performing them;
* wall-clock time enters the polling loop as an explicit trace of
  observations `(operation.done(), time.time())`, one per loop iteration.
-/

attribute [local semireducible] Rat.mul Rat.add Rat.sub

/-- Floor of a rational, written directly over `Rat.num`/`Rat.den` so that the
kernel evaluates it on concrete inputs. Agrees with `Int.floor` on ℚ
(`Int.fdiv` is floor division, and `q.den > 0`). -/
def ratFloor (q : ℚ) : ℤ := Int.fdiv q.num (q.den : ℤ)

/-- Floor `⌊q / 60⌋`, the quotient of Python `divmod(q, 60)`, computed over
`q.num`/`q.den` so that the kernel evaluates it: `q / 60 = q.num / (q.den * 60)`
and `Int.fdiv` is floor division by a positive denominator. -/
def floorDiv60 (q : ℚ) : ℤ := Int.fdiv q.num ((q.den : ℤ) * 60)

/-- Python `round(x, 0)` rounds half to even. `roundHalfEven q` is the integer
nearest to `q`, ties to the even integer; computed on `q.num`/`q.den`: with
`f = ⌊q⌋` and `rem = q.num - f * q.den`, the fractional part is `rem / q.den`,
compared against `1/2` by cross-multiplication. -/
def roundHalfEven (q : ℚ) : ℤ :=
  let n := q.num
  let d := (q.den : ℤ)
  let f := Int.fdiv n d
  let rem := n - f * d
  if 2 * rem < d then f
  else if d < 2 * rem then f + 1
  else if f % 2 = 0 then f else f + 1

/-- Python `round(x, 2)`: round to 2 decimal places, ties to even
(`Rat.divInt a 100` is the rational `a / 100`). -/
def pyRound2 (q : ℚ) : ℚ := Rat.divInt (roundHalfEven (q * 100)) 100

/-- Python `str(x)` for a float whose value is an exact multiple of `1/100`
(the only floats the script ever formats, since every formatted value has
passed through `round(_, 2)` or is a whole number): `45 ↦ "45.0"`,
`5/2 ↦ "2.5"`, `1/20 ↦ "0.05"`. -/
def pyFloatRepr (q : ℚ) : String :=
  let sign := if q.num < 0 then "-" else ""
  let a := if q.num < 0 then -q else q
  let ip := (ratFloor a).toNat
  let cents := (ratFloor (a * 100)).toNat % 100
  if cents = 0 then sign ++ toString ip ++ ".0"
  else if cents % 10 = 0 then sign ++ toString ip ++ "." ++ toString (cents / 10)
  else if cents < 10 then sign ++ toString ip ++ ".0" ++ toString cents
  else sign ++ toString ip ++ "." ++ toString cents

/-- Model of `get_wait_time` (source lines 65–72), as a function of the rounded elapsed
time `total_time = round(time.time() - start_time, 2)`.  The source assigns
`wait_time` only under the guards `total_time <= 60` and `total_time <= 3600`;
past both guards the final `return wait_time` raises `UnboundLocalError`,
modelled as `none`.  `divmod(total_time, 60)` is floor division and
remainder on floats. -/
def get_wait_time (total_time : ℚ) : Option String :=
  if total_time ≤ 60 then
    some (pyFloatRepr total_time ++ " seconds")
  else if total_time ≤ 3600 then
    let m : ℚ := (floorDiv60 total_time : ℚ)
    let s : ℚ := total_time - 60 * m
    some (pyFloatRepr m ++ " minutes " ++ pyFloatRepr (pyRound2 s) ++ " seconds")
  else
    none

/-- Python `s.startswith(p)` on plain strings: `p.data` is a literal prefix
of `s.data` (computed over the character lists so the kernel evaluates it;
`String.startsWith` itself does not kernel-reduce). -/
def strStartsWith (s p : String) : Bool := p.data.isPrefixOf s.data

/-- Python `s.endswith(p)` on plain strings, over the character lists. -/
def strEndsWith (s p : String) : Bool := p.data.reverse.isPrefixOf s.data.reverse

/-- The two shapes of `types.RecognitionAudio` built by `get_audio`
(source lines 31–41): a remote reference `uri=path`, or the inline byte
content of a local file (bytes modelled as naturals). -/
inductive AudioInput where
  | remoteRef (uri : String)
  | localBytes (content : List Nat)
deriving DecidableEq

/-- Model of `get_audio(path)` (source lines 31–41).  The local file system is an
explicit parameter `fs`: `fs p = some bytes` means path `p` can be opened for
binary read with exact content `bytes`; `fs p = none` means `io.open`/`read`
fails, which the script does not catch, so it surfaces as an `IOError`
(modelled as `Except.error`).  A path starting with the literal prefix
`gs://` is wrapped verbatim as a remote reference and `fs` is never
consulted. -/
def get_audio (fs : String → Option (List Nat)) (path : String) :
    Except String AudioInput :=
  if strStartsWith path "gs://" then
    Except.ok (AudioInput.remoteRef path)
  else
    match fs path with
    | some content => Except.ok (AudioInput.localBytes content)
    | none => Except.error "IOError"

/-- One alternative transcript of a result segment, as returned by the cloud
API (`result.alternatives[i].transcript`). -/
structure SpeechAlternative where
  transcript : String
deriving DecidableEq

/-- One result segment of a recognition response (`response.results[i]`). -/
structure SpeechResult where
  alternatives : List SpeechAlternative
deriving DecidableEq

/-- The transcript-assembly loop of `transcribe_long_audio_file` (source
lines 103–106): starting from `transcription = ''`, append
`result.alternatives[0].transcript` followed by `'\n'` for each result in
order.  `result.alternatives[0]` on an empty alternatives list raises
`IndexError`, modelled by `none` (via `List.head?`). -/
def assemble_transcription (results : List SpeechResult) : Option String :=
  results.foldlM
    (fun acc r => (r.alternatives.head?).map (fun a => acc ++ a.transcript ++ "\n"))
    ""

/-- Spec-side description of transcript assembly: the first alternative of
each segment, in order (`none` when some segment has no alternative). -/
def firstAlternatives : List SpeechResult → Option (List String)
  | [] => some []
  | r :: rest =>
    match r.alternatives.head?, firstAlternatives rest with
    | some a, some ts => some (a.transcript :: ts)
    | _, _ => none

/-- Spec-side description of joining: each line followed by a newline,
concatenated in order. -/
def joinLines (lines : List String) : String :=
  lines.foldr (fun l acc => l ++ "\n" ++ acc) ""

/-- Model of `transcribe_short_audio_file(config, audio)` (source lines 75–80).
First component: the lines printed (`'Transcript: ...'` per segment, `none`
if some segment has an empty alternatives list, where `alternatives[0]`
raises `IndexError`).  Second component: the value the Python function
returns — it has no `return` statement, so it always returns `None`. -/
def transcribe_short_audio_file (results : List SpeechResult) :
    Option (List String) × Option String :=
  (results.mapM
      (fun r => (r.alternatives.head?).map (fun a => "Transcript: " ++ a.transcript)),
    none)

/-- POSIX `os.path.split`: split at the last `'/'`; trailing
slashes are stripped from the head unless the head is all slashes. -/
def os_path_split (p : String) : String × String :=
  let cs := p.data
  match (List.range cs.length).foldl
      (fun acc i => if cs.get? i = some '/' then some i else acc) none with
  | none => ("", p)
  | some i =>
    let head := cs.take (i + 1)
    let tail := cs.drop (i + 1)
    let head := if head.all (fun c => c = '/') then head
                else (head.reverse.dropWhile (fun c => c = '/')).reverse
    (String.mk head, String.mk tail)

/-- POSIX `os.path.splitext`: split at the last `'.'` that lies
after the last `'/'` and after at least one non-dot character of the
basename (so `.bashrc` has no extension). -/
def os_path_splitext (p : String) : String × String :=
  let cs := p.data
  let sepIndex : ℤ := match (List.range cs.length).foldl
      (fun acc i => if cs.get? i = some '/' then some i else acc) none with
    | some i => (i : ℤ)
    | none => -1
  let dotIndex : ℤ := match (List.range cs.length).foldl
      (fun acc i => if cs.get? i = some '.' then some i else acc) none with
    | some i => (i : ℤ)
    | none => -1
  if sepIndex < dotIndex then
    let d := dotIndex.toNat
    if (List.range d).any (fun j => decide (sepIndex < (j : ℤ)) && cs.get? j != some '.') then
      (String.mk (cs.take d), String.mk (cs.drop d))
    else (p, "")
  else (p, "")

/-- POSIX `os.path.join(a, b)`, for the two-argument case used by
the script. -/
def os_path_join (a b : String) : String :=
  if strStartsWith b "/" then b
  else if a = "" ∨ strEndsWith a "/" then a ++ b
  else a ++ "/" ++ b

/-- The file-open-and-write performed by `write_file` (source line 57): the
name passed to `open` (relative to the process working directory, since it
is not joined with any directory), the mode, and the written text. -/
structure FileWrite where
  openedName : String
  mode : String
  contents : String
deriving DecidableEq

/-- Model of `write_file(path, language, transcription)` (source lines 53–62).
Returns the `open`/`write` effect and the `new_path` the script prints in
`Saved transcription to ...` and returns.  Note the source opens `name`
(the bare filename) but reports `os.path.join(dir, name)`. -/
def write_file (path language transcription : String) : FileWrite × String :=
  let dir := (os_path_split path).1
  let ext_name := (os_path_split path).2
  let name := (os_path_splitext ext_name).1 ++ "_" ++ language ++ ".txt"
  let new_path := os_path_join dir name
  (⟨name, "w+", transcription⟩, new_path)

/-- The `__main__` wiring for `--length short` (source lines 145–149):
`transcription = transcribe_short_audio_file(config, audio)` followed by
`write_file(args.path, args.language, transcription)`.  The driver returns
`None`, so `f.write(transcription)` inside `write_file` raises
`TypeError: write() argument must be str, not NoneType` (modelled as
`Except.error`); no transcript text is ever written. -/
def main_short_invocation (path language : String) (results : List SpeechResult) :
    Except String (FileWrite × String) :=
  match (transcribe_short_audio_file results).2 with
  | some transcription => Except.ok (write_file path language transcription)
  | none => Except.error "TypeError: write() argument must be str, not NoneType"

/-- How one run of the polling loop of `transcribe_long_audio_file`
(source lines 90–98) ends. -/
inductive PollOutcome where
  /-- `operation.done()` returned `True`: the loop exits normally. -/
  | completed
  /-- The 12-hour branch fired: the script prints
  `Operation is still running after 12 hours, exiting program` and calls
  `exit()` — no output file is written. -/
  | timedOut
  /-- `get_wait_time` fell through both guards, so its `return wait_time`
  raised `UnboundLocalError` and the process died with a traceback. -/
  | crashed
  /-- The observation trace ended with the loop still running. -/
  | stillPolling
deriving DecidableEq

/-- The polling loop of `transcribe_long_audio_file` (source lines 90–98),
driven by a finite trace of observations: at each iteration the script reads
`operation.done()` and `time.time()` (recorded here as one `(done, now)`
pair per iteration; `start` is the `time.time()` taken at submission).
The loop body is translated literally: the guard is
`(start_time - time.time()) > 43200` — `start` minus `now`, exactly as in
the source — and the else-branch prints
`get_wait_time` of the elapsed time (whose `total_time` is
`round(time.time() - start_time, 2)`) and sleeps 120 seconds. -/
def poll_loop (start : ℚ) : List (Bool × ℚ) → PollOutcome
  | [] => PollOutcome.stillPolling
  | (done, now) :: rest =>
    if done then PollOutcome.completed
    else if start - now > 43200 then PollOutcome.timedOut
    else
      match get_wait_time (pyRound2 (now - start)) with
      | some _ => poll_loop start rest
      | none => PollOutcome.crashed

example : get_wait_time 45 = some "45.0 seconds" := by decide
example : get_wait_time 125 = some "2.0 minutes 5.0 seconds" := by decide
example : get_wait_time 60 = some "60.0 seconds" := by decide
example : get_wait_time 3700 = none := by decide
example : pyFloatRepr (mkRat 5 2) = "2.5" := by decide
example : pyFloatRepr (mkRat 1 20) = "0.05" := by decide
example : pyRound2 (mkRat 125 10) = mkRat 25 2 := by decide
example : os_path_split "/tmp/clip.wav" = ("/tmp", "clip.wav") := by decide
example : os_path_splitext "clip.wav" = ("clip", ".wav") := by decide
example : write_file "/tmp/clip.wav" "en-US" "hi" =
    (⟨"clip_en-US.txt", "w+", "hi"⟩, "/tmp/clip_en-US.txt") := by decide
example : assemble_transcription [⟨[⟨"hello"⟩]⟩, ⟨[⟨"world"⟩]⟩] =
    some "hello\nworld\n" := by decide
example : poll_loop 0 [(false, 50000)] = PollOutcome.crashed := by decide
example : poll_loop 0 [(false, 30), (true, 150)] = PollOutcome.completed := by decide
example : get_audio (fun _ => none) "gs://bucket/clip.flac" =
    Except.ok (AudioInput.remoteRef "gs://bucket/clip.flac") := by rfl

/-! ## Properties -/

/-- Helper for transcript assembly: the fold underlying
`assemble_transcription`, with an arbitrary accumulator. -/
theorem assemble_transcription_go (results : List SpeechResult) (alts : List String)
    (acc : String) (h : firstAlternatives results = some alts) :
    List.foldlM
        (fun acc r => (r.alternatives.head?).map (fun a => acc ++ a.transcript ++ "\n"))
        acc results
      = some (acc ++ joinLines alts) := by
  induction results generalizing alts acc with
  | nil =>
    simp [firstAlternatives] at h
    subst h
    simp [List.foldlM, joinLines]
  | cons r rest ih =>
    cases ha : r.alternatives.head? with
    | none =>
      rw [firstAlternatives] at h
      simp [ha] at h
    | some a =>
      cases hrest : firstAlternatives rest with
      | none =>
        rw [firstAlternatives] at h
        simp [ha, hrest] at h
      | some ts =>
        rw [firstAlternatives] at h
        simp [ha, hrest] at h
        subst h
        have step := ih ts (acc ++ a.transcript ++ "\n") hrest
        simp only [String.append_assoc] at step
        simp [List.foldlM, ha, joinLines, String.append_assoc, step]

/-- C4: for every (rounded) elapsed duration strictly greater than 3600
seconds, neither guard of `get_wait_time` applies and the function produces
no result (`wait_time` is never assigned, so the `return` raises
`UnboundLocalError`). -/
theorem get_wait_time_undefined_beyond_3600 (t : ℚ) (h : 3600 < t) :
    get_wait_time t = none := by
  have h60 : ¬ t ≤ 60 := by linarith
  have h3600 : ¬ t ≤ 3600 := by linarith
  simp [get_wait_time, h60, h3600]

/-- C4 witness: at 43200 seconds (the 12-hour mark) `get_wait_time` has no
result. -/
theorem get_wait_time_undefined_beyond_3600_witness :
    get_wait_time 43200 = none :=
  get_wait_time_undefined_beyond_3600 43200 (by norm_num)

/-- C5: every duration of at most 60 seconds is formatted as `N seconds`;
every duration in (60, 3600] is formatted as `M minutes S seconds` with `M`
the floor-division quotient by 60 and `S` the remainder rounded to 2
decimals; in particular `45.0`, `125.0` and the boundary `60.0` format as
the spec states. -/
theorem get_wait_time_formatting :
    (∀ t : ℚ, t ≤ 60 → get_wait_time t = some (pyFloatRepr t ++ " seconds")) ∧
    (∀ t : ℚ, 60 < t → t ≤ 3600 →
      get_wait_time t =
        some (pyFloatRepr ((floorDiv60 t : ℤ) : ℚ) ++ " minutes " ++
          pyFloatRepr (pyRound2 (t - 60 * ((floorDiv60 t : ℤ) : ℚ))) ++ " seconds")) ∧
    get_wait_time 45 = some "45.0 seconds" ∧
    get_wait_time 125 = some "2.0 minutes 5.0 seconds" ∧
    get_wait_time 60 = some "60.0 seconds" := by
  refine ⟨?_, ?_, by decide, by decide, by decide⟩
  · intro t ht
    simp [get_wait_time, ht]
  · intro t h1 h2
    have h60 : ¬ t ≤ 60 := by linarith
    simp [get_wait_time, h60, h2]

/-- C5 witness: the seconds branch applied at the concrete duration 45. -/
theorem get_wait_time_formatting_witness :
    get_wait_time 45 = some (pyFloatRepr 45 ++ " seconds") :=
  get_wait_time_formatting.1 45 (by norm_num)

/-- C1: the 12-hour timeout branch of the polling loop is unreachable.  The
source tests `(start_time - time.time()) > 43200`, and `start_time ≤
time.time()` on every observation, so the loop never reaches `timedOut`; a
run whose elapsed time has passed 12 hours (e.g. 50000 s) instead dies with
`UnboundLocalError` inside `get_wait_time` (outcome `crashed`).  This
contradicts the claimed detect-report-terminate behaviour. -/
theorem poll_loop_timeout_unreachable :
    (∀ start : ℚ, ∀ obs : List (Bool × ℚ),
        (∀ o ∈ obs, start ≤ o.2) → poll_loop start obs ≠ PollOutcome.timedOut) ∧
    poll_loop 0 [(false, 50000)] = PollOutcome.crashed := by
  refine ⟨?_, by decide⟩
  intro start obs h
  induction obs with
  | nil => simp [poll_loop]
  | cons o rest ih =>
    obtain ⟨done, now⟩ := o
    have hnow : start ≤ now := h (done, now) (List.mem_cons_self _ _)
    have hrest : ∀ o ∈ rest, start ≤ o.2 := fun o ho => h o (List.mem_cons_of_mem _ ho)
    have hguard : ¬ (start - now > 43200) := by
      rw [not_lt]
      linarith
    cases done with
    | true => simp [poll_loop]
    | false =>
      rw [poll_loop]
      simp only [Bool.false_eq_true, if_false, if_neg hguard]
      cases hw : get_wait_time (pyRound2 (now - start)) with
      | none => simp
      | some s => simpa using ih hrest

/-- C1 witness: a never-done run observed at elapsed time 50000 s (≈13.9 h)
does not reach the timeout branch. -/
theorem poll_loop_timeout_unreachable_witness :
    poll_loop 0 [(false, 50000)] ≠ PollOutcome.timedOut :=
  poll_loop_timeout_unreachable.1 0 [(false, 50000)]
    (by
      intro o ho
      rcases List.mem_singleton.mp ho with rfl
      norm_num)

/-- C2: for input `/tmp/clip.wav` and language `en-US`, `write_file` opens
the bare name `clip_en-US.txt` (resolved against the process working
directory, not the input's directory) while reporting
`/tmp/clip_en-US.txt`; the opened name and the reported path differ. -/
theorem write_file_opens_outside_input_dir :
    (write_file "/tmp/clip.wav" "en-US" "hello\n").1.openedName = "clip_en-US.txt" ∧
    (write_file "/tmp/clip.wav" "en-US" "hello\n").2 = "/tmp/clip_en-US.txt" ∧
    (write_file "/tmp/clip.wav" "en-US" "hello\n").1.openedName ≠
      (write_file "/tmp/clip.wav" "en-US" "hello\n").2 :=
  ⟨by decide, by decide, by decide⟩

/-- C3: the short-form driver always returns `None` (it prints the
transcripts but has no `return`), so the subsequent `write_file` call fails
with a `TypeError` on every short-mode invocation — the transcription is
never returned as a string nor written to a file. -/
theorem short_mode_never_writes_transcript :
    (∀ results, (transcribe_short_audio_file results).2 = none) ∧
    (∀ path language results,
        main_short_invocation path language results =
          Except.error "TypeError: write() argument must be str, not NoneType") :=
  ⟨fun _ => rfl, fun _ _ _ => rfl⟩

/-- C6: for every path starting with `gs://` and every state of the local
file system (including one where no file is readable), `get_audio` returns
the remote reference carrying the path verbatim — the file system is never
consulted. -/
theorem get_audio_remote_verbatim (fs : String → Option (List Nat))
    (path : String) (h : strStartsWith path "gs://" = true) :
    get_audio fs path = Except.ok (AudioInput.remoteRef path) := by
  simp [get_audio, h]

/-- C6 witness: a `gs://` URI resolves to a verbatim remote reference even
on a file system where every open fails. -/
theorem get_audio_remote_verbatim_witness :
    get_audio (fun _ => none) "gs://bucket/clip.flac" =
      Except.ok (AudioInput.remoteRef "gs://bucket/clip.flac") :=
  get_audio_remote_verbatim (fun _ => none) "gs://bucket/clip.flac" (by decide)

/-- C7: for every path that does not start with `gs://`, `get_audio` reads
the file's exact byte content into a local payload (never a remote
reference), and fails with `IOError` when the file cannot be opened or
read. -/
theorem get_audio_local_reads_bytes (fs : String → Option (List Nat))
    (path : String) (h : strStartsWith path "gs://" = false) :
    (∀ content, fs path = some content →
        get_audio fs path = Except.ok (AudioInput.localBytes content)) ∧
    (fs path = none → get_audio fs path = Except.error "IOError") := by
  constructor
  · intro content hc
    simp [get_audio, h, hc]
  · intro hn
    simp [get_audio, h, hn]

/-- C7 witness: a local FLAC file's bytes are read verbatim. -/
theorem get_audio_local_reads_bytes_witness :
    get_audio (fun p => if p = "clip.flac" then some [102, 76, 97, 67] else none)
        "clip.flac" =
      Except.ok (AudioInput.localBytes [102, 76, 97, 67]) :=
  (get_audio_local_reads_bytes
      (fun p => if p = "clip.flac" then some [102, 76, 97, 67] else none)
      "clip.flac" (by decide)).1 [102, 76, 97, 67] (by decide)

/-- C9: the remote test is a case-sensitive literal check for `gs://`:
`GS://bucket/clip.flac` does not pass it and is opened as a local file. -/
theorem remote_check_case_sensitive :
    strStartsWith "GS://bucket/clip.flac" "gs://" = false ∧
    (∀ fs : String → Option (List Nat), ∀ content : List Nat,
        fs "GS://bucket/clip.flac" = some content →
        get_audio fs "GS://bucket/clip.flac" =
          Except.ok (AudioInput.localBytes content)) := by
  refine ⟨by decide, ?_⟩
  intro fs content hc
  simp [get_audio, hc, (by decide : strStartsWith "GS://bucket/clip.flac" "gs://" = false)]

/-- C9 witness: an upper-case `GS://` path is read from the local file
system. -/
theorem remote_check_case_sensitive_witness :
    get_audio (fun _ => some [0]) "GS://bucket/clip.flac" =
      Except.ok (AudioInput.localBytes [0]) :=
  remote_check_case_sensitive.2 (fun _ => some [0]) [0] rfl

/-- C8: whenever every segment has a first alternative, the assembled
transcript is the concatenation of those first alternatives in order, each
followed by a newline; in particular segments `hello` and `world` assemble
to `"hello\nworld\n"`. -/
theorem transcript_assembly :
    (∀ results alts, firstAlternatives results = some alts →
        assemble_transcription results = some (joinLines alts)) ∧
    assemble_transcription [⟨[⟨"hello"⟩]⟩, ⟨[⟨"world"⟩]⟩] = some "hello\nworld\n" := by
  refine ⟨?_, by decide⟩
  intro results alts h
  have step := assemble_transcription_go results alts "" h
  simpa [assemble_transcription] using step

/-- C8 witness: the two-segment example, through the general statement. -/
theorem transcript_assembly_witness :
    assemble_transcription [⟨[⟨"hello"⟩]⟩, ⟨[⟨"world"⟩]⟩] =
      some (joinLines ["hello", "world"]) :=
  transcript_assembly.1 [⟨[⟨"hello"⟩]⟩, ⟨[⟨"world"⟩]⟩] ["hello", "world"] (by decide)

/-- C10: a completed long-form result with zero segments assembles to the
empty transcript, and the writer still opens the output file in truncating
`w+` mode with empty contents for every path and language — file creation
is not suppressed — and still reports the derived path. -/
theorem empty_result_still_written :
    assemble_transcription [] = some "" ∧
    (∀ path language, (write_file path language "").1.mode = "w+" ∧
        (write_file path language "").1.contents = "") ∧
    (write_file "/tmp/clip.wav" "en-US" "").2 = "/tmp/clip_en-US.txt" :=
  ⟨rfl, fun _ _ => ⟨rfl, rfl⟩, by decide⟩
